import Mathlib

/-!
Verification of the Perspective (Comment Analyzer) API type declarations
(src/index.ts).  The repository consists solely of declarative
request/response shapes for a JSON web API; we embed each interface as a
Lean structure, with TypeScript optional fields (`f?: T`) as `Option`
fields, string-keyed index signatures as association lists of key/value
pairs (mirroring a JSON object), and JSON `number` as an exact rational.

The repository itself contains no serialization code: the spec describes
the shapes' behavior at the JSON serialization boundary (optional fields
omitted when absent, round-trip properties).  The `Json` wire model and
the per-shape `...ToJson` / `...FromJson` functions below are therefore
modelled from the spec: encoders emit exactly the declared field names,
omitting absent optional fields; decoders look fields up by name,
requiring the required fields and defaulting absent optional ones to
"absent" (never to null or zero placeholders).
-/

namespace Perspective

/-- JSON numbers (TypeScript `number` literals on this wire) are modelled
as exact rationals. -/
abbrev Number := Rat

/-- The type of text contained in a `Comment` or `ContextEntry`:
`'PLAIN_TEXT' | 'HTML'`. -/
inductive TextType where
  | PLAIN_TEXT : TextType
  | HTML : TextType
deriving DecidableEq

/-- A piece of text to be scored by the API. `text` is required,
`type` is optional. -/
structure Comment where
  text : String
  type : Option TextType
deriving DecidableEq

/-- A context entry provides surrounding text context for the comment.
Both fields are optional. -/
structure ContextEntry where
  text : Option String
  type : Option TextType
deriving DecidableEq

/-- Optional context container holding zero or more context entries. -/
structure Context where
  entries : Option (List ContextEntry)
deriving DecidableEq

/-- The score type requested/returned for an attribute.  In the source
this is `'PROBABILITY' | string`, which admits every string. -/
abbrev ScoreType := String

/-- Configuration for a requested attribute in an Analyze request; both
fields are optional, so an empty object is a valid configuration. -/
structure RequestedAttributeConfig where
  scoreType : Option ScoreType
  scoreThreshold : Option Number
deriving DecidableEq

/-- AnalyzeComment request shape.  Only `comment` and
`requestedAttributes` are required; the map from attribute name to
configuration is an association list of JSON object entries. -/
structure AnalyzeCommentRequest where
  comment : Comment
  context : Option Context
  requestedAttributes : List (String × RequestedAttributeConfig)
  languages : Option (List String)
  doNotStore : Option Bool
  clientToken : Option String
  sessionId : Option String
  communityId : Option String
  spanAnnotations : Option Bool
deriving DecidableEq

/-- A single numeric score returned by the API for an attribute or span.
`value` is required, `type` is optional. -/
structure Score where
  value : Number
  type : Option ScoreType
deriving DecidableEq

/-- A span-level score over a substring of the original comment; all
three fields are required. -/
structure SpanScore where
  begin : Number
  «end» : Number
  score : Score
deriving DecidableEq

/-- Per-attribute scores returned by the API; both the summary score and
the span-score list are optional. -/
structure AttributeScore where
  summaryScore : Option Score
  spanScores : Option (List SpanScore)
deriving DecidableEq

/-- AnalyzeComment response shape; every field is optional. -/
structure AnalyzeCommentResponse where
  attributeScores : Option (List (String × AttributeScore))
  languages : Option (List String)
  clientToken : Option String
deriving DecidableEq

/-- Request shape for suggesting a comment score (feedback endpoint).
`comment` and `attributeScores` are required. -/
structure SuggestCommentScoreRequest where
  comment : Comment
  context : Option Context
  attributeScores : List (String × AttributeScore)
  languages : Option (List String)
  communityId : Option String
  clientToken : Option String
deriving DecidableEq

/-- SuggestCommentScore response shape (echoes clientToken if provided). -/
structure SuggestCommentScoreResponse where
  clientToken : Option String
deriving DecidableEq

/-- Convenience union of the two request shapes. -/
def PerspectiveRequest := Sum AnalyzeCommentRequest SuggestCommentScoreRequest

/-- Convenience union of the two response shapes. -/
def PerspectiveResponse := Sum AnalyzeCommentResponse SuggestCommentScoreResponse

/-- Modelled from the spec: the JSON wire values exchanged with the
external service (the repository declares only the shapes; serialization
is performed by the consuming program). -/
inductive Json where
  | null : Json
  | bool : Bool → Json
  | num : Number → Json
  | str : String → Json
  | arr : List Json → Json
  | obj : List (String × Json) → Json

/-- Prepend an optional object entry: an absent optional field
contributes no entry to the serialized object. -/
def optCons (k : String) (o : Option Json) (rest : List (String × Json)) :
    List (String × Json) :=
  match o with
  | none => rest
  | some j => (k, j) :: rest

/-- Look a field up by name in a JSON object's entry list. -/
def getKey (k : String) : List (String × Json) → Option Json
  | [] => none
  | (k', j) :: rest => if k' = k then some j else getKey k rest

/-- Decode a required field: absent means failure. -/
def decReq (dec : Json → Option α) : Option Json → Option α
  | none => none
  | some j => dec j

/-- Decode an optional field: absent decodes to `none` (a valid state),
present to `some` of the decoded value. -/
def decOpt (dec : Json → Option α) : Option Json → Option (Option α)
  | none => some none
  | some j => (dec j).map some

/-- Decode every element of a JSON array. -/
def decodeList (dec : Json → Option α) : List Json → Option (List α)
  | [] => some []
  | j :: rest => (dec j).bind fun a => (decodeList dec rest).map fun l => a :: l

def listFromJson (dec : Json → Option α) : Json → Option (List α)
  | Json.arr items => decodeList dec items
  | _ => none

/-- Decode every entry of a string-keyed JSON object into an
association list, preserving key order. -/
def decodeEntries (dec : Json → Option α) :
    List (String × Json) → Option (List (String × α))
  | [] => some []
  | (k, j) :: rest =>
    (dec j).bind fun v => (decodeEntries dec rest).map fun m => (k, v) :: m

def mapFromJson (dec : Json → Option α) : Json → Option (List (String × α))
  | Json.obj flds => decodeEntries dec flds
  | _ => none

/-- Encode a string-keyed mapping as a JSON object. -/
def mapToJson (enc : α → Json) (m : List (String × α)) : Json :=
  Json.obj (m.map fun kv => (kv.1, enc kv.2))

def strFromJson : Json → Option String
  | Json.str s => some s
  | _ => none

def numFromJson : Json → Option Number
  | Json.num q => some q
  | _ => none

def boolFromJson : Json → Option Bool
  | Json.bool b => some b
  | _ => none

def stringListToJson (l : List String) : Json :=
  Json.arr (l.map Json.str)

def stringListFromJson : Json → Option (List String) :=
  listFromJson strFromJson

def textTypeToJson : TextType → Json
  | TextType.PLAIN_TEXT => Json.str "PLAIN_TEXT"
  | TextType.HTML => Json.str "HTML"

def textTypeFromJson : Json → Option TextType
  | Json.str s =>
    if s = "PLAIN_TEXT" then some TextType.PLAIN_TEXT
    else if s = "HTML" then some TextType.HTML
    else none
  | _ => none

def scoreTypeToJson (t : ScoreType) : Json := Json.str t

def scoreTypeFromJson : Json → Option ScoreType := strFromJson

def commentFields (c : Comment) : List (String × Json) :=
  ("text", Json.str c.text) :: optCons "type" (c.type.map textTypeToJson) []

def commentToJson (c : Comment) : Json := Json.obj (commentFields c)

def commentFromJson : Json → Option Comment
  | Json.obj flds =>
    (decReq strFromJson (getKey "text" flds)).bind fun t =>
    (decOpt textTypeFromJson (getKey "type" flds)).map fun ty =>
    { text := t, type := ty }
  | _ => none

def contextEntryFields (e : ContextEntry) : List (String × Json) :=
  optCons "text" (e.text.map Json.str)
    (optCons "type" (e.type.map textTypeToJson) [])

def contextEntryToJson (e : ContextEntry) : Json := Json.obj (contextEntryFields e)

def contextEntryFromJson : Json → Option ContextEntry
  | Json.obj flds =>
    (decOpt strFromJson (getKey "text" flds)).bind fun t =>
    (decOpt textTypeFromJson (getKey "type" flds)).map fun ty =>
    { text := t, type := ty }
  | _ => none

def contextEntryListToJson (l : List ContextEntry) : Json :=
  Json.arr (l.map contextEntryToJson)

def contextFields (c : Context) : List (String × Json) :=
  optCons "entries" (c.entries.map contextEntryListToJson) []

def contextToJson (c : Context) : Json := Json.obj (contextFields c)

def contextFromJson : Json → Option Context
  | Json.obj flds =>
    (decOpt (listFromJson contextEntryFromJson) (getKey "entries" flds)).map
      fun es => { entries := es }
  | _ => none

def requestedAttributeConfigFields (cfg : RequestedAttributeConfig) :
    List (String × Json) :=
  optCons "scoreType" (cfg.scoreType.map scoreTypeToJson)
    (optCons "scoreThreshold" (cfg.scoreThreshold.map Json.num) [])

def requestedAttributeConfigToJson (cfg : RequestedAttributeConfig) : Json :=
  Json.obj (requestedAttributeConfigFields cfg)

def requestedAttributeConfigFromJson : Json → Option RequestedAttributeConfig
  | Json.obj flds =>
    (decOpt scoreTypeFromJson (getKey "scoreType" flds)).bind fun st =>
    (decOpt numFromJson (getKey "scoreThreshold" flds)).map fun th =>
    { scoreType := st, scoreThreshold := th }
  | _ => none

def analyzeCommentRequestFields (r : AnalyzeCommentRequest) :
    List (String × Json) :=
  ("comment", commentToJson r.comment) ::
  optCons "context" (r.context.map contextToJson)
  (("requestedAttributes",
      mapToJson requestedAttributeConfigToJson r.requestedAttributes) ::
  optCons "languages" (r.languages.map stringListToJson)
  (optCons "doNotStore" (r.doNotStore.map Json.bool)
  (optCons "clientToken" (r.clientToken.map Json.str)
  (optCons "sessionId" (r.sessionId.map Json.str)
  (optCons "communityId" (r.communityId.map Json.str)
  (optCons "spanAnnotations" (r.spanAnnotations.map Json.bool) []))))))

def analyzeCommentRequestToJson (r : AnalyzeCommentRequest) : Json :=
  Json.obj (analyzeCommentRequestFields r)

def analyzeCommentRequestFromJson : Json → Option AnalyzeCommentRequest
  | Json.obj flds =>
    (decReq commentFromJson (getKey "comment" flds)).bind fun c =>
    (decOpt contextFromJson (getKey "context" flds)).bind fun ctx =>
    (decReq (mapFromJson requestedAttributeConfigFromJson)
        (getKey "requestedAttributes" flds)).bind fun ra =>
    (decOpt stringListFromJson (getKey "languages" flds)).bind fun langs =>
    (decOpt boolFromJson (getKey "doNotStore" flds)).bind fun dns =>
    (decOpt strFromJson (getKey "clientToken" flds)).bind fun ct =>
    (decOpt strFromJson (getKey "sessionId" flds)).bind fun sid =>
    (decOpt strFromJson (getKey "communityId" flds)).bind fun cid =>
    (decOpt boolFromJson (getKey "spanAnnotations" flds)).map fun sa =>
    { comment := c, context := ctx, requestedAttributes := ra,
      languages := langs, doNotStore := dns, clientToken := ct,
      sessionId := sid, communityId := cid, spanAnnotations := sa }
  | _ => none

def scoreFields (s : Score) : List (String × Json) :=
  ("value", Json.num s.value) :: optCons "type" (s.type.map scoreTypeToJson) []

def scoreToJson (s : Score) : Json := Json.obj (scoreFields s)

def scoreFromJson : Json → Option Score
  | Json.obj flds =>
    (decReq numFromJson (getKey "value" flds)).bind fun v =>
    (decOpt scoreTypeFromJson (getKey "type" flds)).map fun ty =>
    { value := v, type := ty }
  | _ => none

def spanScoreFields (s : SpanScore) : List (String × Json) :=
  [("begin", Json.num s.begin), ("end", Json.num s.«end»),
   ("score", scoreToJson s.score)]

def spanScoreToJson (s : SpanScore) : Json := Json.obj (spanScoreFields s)

def spanScoreFromJson : Json → Option SpanScore
  | Json.obj flds =>
    (decReq numFromJson (getKey "begin" flds)).bind fun b =>
    (decReq numFromJson (getKey "end" flds)).bind fun e =>
    (decReq scoreFromJson (getKey "score" flds)).map fun sc =>
    { begin := b, «end» := e, score := sc }
  | _ => none

def spanScoreListToJson (l : List SpanScore) : Json :=
  Json.arr (l.map spanScoreToJson)

def attributeScoreFields (a : AttributeScore) : List (String × Json) :=
  optCons "summaryScore" (a.summaryScore.map scoreToJson)
    (optCons "spanScores" (a.spanScores.map spanScoreListToJson) [])

def attributeScoreToJson (a : AttributeScore) : Json :=
  Json.obj (attributeScoreFields a)

def attributeScoreFromJson : Json → Option AttributeScore
  | Json.obj flds =>
    (decOpt scoreFromJson (getKey "summaryScore" flds)).bind fun ss =>
    (decOpt (listFromJson spanScoreFromJson) (getKey "spanScores" flds)).map
      fun sps => { summaryScore := ss, spanScores := sps }
  | _ => none

def analyzeCommentResponseFields (r : AnalyzeCommentResponse) :
    List (String × Json) :=
  optCons "attributeScores"
      (r.attributeScores.map (mapToJson attributeScoreToJson))
    (optCons "languages" (r.languages.map stringListToJson)
    (optCons "clientToken" (r.clientToken.map Json.str) []))

def analyzeCommentResponseToJson (r : AnalyzeCommentResponse) : Json :=
  Json.obj (analyzeCommentResponseFields r)

def analyzeCommentResponseFromJson : Json → Option AnalyzeCommentResponse
  | Json.obj flds =>
    (decOpt (mapFromJson attributeScoreFromJson)
        (getKey "attributeScores" flds)).bind fun a =>
    (decOpt stringListFromJson (getKey "languages" flds)).bind fun langs =>
    (decOpt strFromJson (getKey "clientToken" flds)).map fun ct =>
    { attributeScores := a, languages := langs, clientToken := ct }
  | _ => none

def suggestCommentScoreRequestFields (r : SuggestCommentScoreRequest) :
    List (String × Json) :=
  ("comment", commentToJson r.comment) ::
  optCons "context" (r.context.map contextToJson)
  (("attributeScores", mapToJson attributeScoreToJson r.attributeScores) ::
  optCons "languages" (r.languages.map stringListToJson)
  (optCons "communityId" (r.communityId.map Json.str)
  (optCons "clientToken" (r.clientToken.map Json.str) [])))

def suggestCommentScoreRequestToJson (r : SuggestCommentScoreRequest) : Json :=
  Json.obj (suggestCommentScoreRequestFields r)

def suggestCommentScoreRequestFromJson :
    Json → Option SuggestCommentScoreRequest
  | Json.obj flds =>
    (decReq commentFromJson (getKey "comment" flds)).bind fun c =>
    (decOpt contextFromJson (getKey "context" flds)).bind fun ctx =>
    (decReq (mapFromJson attributeScoreFromJson)
        (getKey "attributeScores" flds)).bind fun a =>
    (decOpt stringListFromJson (getKey "languages" flds)).bind fun langs =>
    (decOpt strFromJson (getKey "communityId" flds)).bind fun cid =>
    (decOpt strFromJson (getKey "clientToken" flds)).map fun ct =>
    { comment := c, context := ctx, attributeScores := a,
      languages := langs, communityId := cid, clientToken := ct }
  | _ => none

def suggestCommentScoreResponseFields (r : SuggestCommentScoreResponse) :
    List (String × Json) :=
  optCons "clientToken" (r.clientToken.map Json.str) []

def suggestCommentScoreResponseToJson (r : SuggestCommentScoreResponse) : Json :=
  Json.obj (suggestCommentScoreResponseFields r)

def suggestCommentScoreResponseFromJson :
    Json → Option SuggestCommentScoreResponse
  | Json.obj flds =>
    (decOpt strFromJson (getKey "clientToken" flds)).map fun ct =>
    { clientToken := ct }
  | _ => none

theorem getKey_nil (k : String) : getKey k [] = none := rfl

theorem getKey_cons_self (k : String) (j : Json) (rest : List (String × Json)) :
    getKey k ((k, j) :: rest) = some j := by
  simp [getKey]

theorem getKey_cons_ne (k' k : String) (j : Json) (rest : List (String × Json))
    (h : ¬ k' = k) : getKey k ((k', j) :: rest) = getKey k rest := by
  simp [getKey, h]

theorem getKey_optCons_ne (k' k : String) (o : Option Json)
    (rest : List (String × Json)) (h : ¬ k' = k) :
    getKey k (optCons k' o rest) = getKey k rest := by
  cases o <;> simp [optCons, getKey, h]

theorem getKey_optCons_self (k : String) (o : Option Json)
    (rest : List (String × Json)) (h : getKey k rest = none) :
    getKey k (optCons k o rest) = o := by
  cases o <;> simp [optCons, getKey, h]

theorem decodeList_map (dec : Json → Option α) (enc : α → Json)
    (h : ∀ a, dec (enc a) = some a) :
    ∀ l : List α, decodeList dec (l.map enc) = some l := by
  intro l
  induction l with
  | nil => rfl
  | cons a rest ih => simp [decodeList, h, ih]

theorem decodeEntries_map (dec : Json → Option α) (enc : α → Json)
    (h : ∀ a, dec (enc a) = some a) :
    ∀ m : List (String × α),
      decodeEntries dec (m.map fun kv => (kv.1, enc kv.2)) = some m := by
  intro m
  induction m with
  | nil => rfl
  | cons kv rest ih => simp [decodeEntries, h, ih]

theorem mapFromJson_mapToJson (dec : Json → Option α) (enc : α → Json)
    (h : ∀ a, dec (enc a) = some a) (m : List (String × α)) :
    mapFromJson dec (mapToJson enc m) = some m := by
  simp [mapToJson, mapFromJson, decodeEntries_map dec enc h]

theorem decOpt_map_of (dec : Json → Option α) (enc : α → Json)
    (h : ∀ a, dec (enc a) = some a) (o : Option α) :
    decOpt dec (Option.map enc o) = some o := by
  cases o <;> simp [decOpt, h]

theorem textType_roundtrip (t : TextType) :
    textTypeFromJson (textTypeToJson t) = some t := by
  cases t <;> rfl

theorem str_roundtrip (s : String) : strFromJson (Json.str s) = some s := rfl

theorem num_roundtrip (q : Number) : numFromJson (Json.num q) = some q := rfl

theorem bool_roundtrip (b : Bool) : boolFromJson (Json.bool b) = some b := rfl

theorem stringList_roundtrip (l : List String) :
    stringListFromJson (stringListToJson l) = some l := by
  simp [stringListToJson, stringListFromJson, listFromJson,
    decodeList_map strFromJson Json.str str_roundtrip]

theorem comment_roundtrip (c : Comment) :
    commentFromJson (commentToJson c) = some c := by
  obtain ⟨t, ty⟩ := c
  cases ty <;>
    simp [commentToJson, commentFromJson, commentFields, optCons, getKey,
      decReq, decOpt, strFromJson, textType_roundtrip]

theorem contextEntry_roundtrip (e : ContextEntry) :
    contextEntryFromJson (contextEntryToJson e) = some e := by
  obtain ⟨t, ty⟩ := e
  cases t <;> cases ty <;>
    simp [contextEntryToJson, contextEntryFromJson, contextEntryFields,
      optCons, getKey, decReq, decOpt, strFromJson, textType_roundtrip]

theorem context_roundtrip (c : Context) :
    contextFromJson (contextToJson c) = some c := by
  obtain ⟨es⟩ := c
  cases es <;>
    simp [contextToJson, contextFromJson, contextFields, optCons, getKey,
      decOpt, listFromJson, contextEntryListToJson,
      decodeList_map contextEntryFromJson contextEntryToJson
        contextEntry_roundtrip]

theorem requestedAttributeConfig_roundtrip (cfg : RequestedAttributeConfig) :
    requestedAttributeConfigFromJson (requestedAttributeConfigToJson cfg) =
      some cfg := by
  obtain ⟨st, th⟩ := cfg
  cases st <;> cases th <;>
    simp [requestedAttributeConfigToJson, requestedAttributeConfigFromJson,
      requestedAttributeConfigFields, optCons, getKey, decOpt,
      scoreTypeFromJson, scoreTypeToJson, strFromJson, numFromJson]

theorem score_roundtrip (s : Score) :
    scoreFromJson (scoreToJson s) = some s := by
  obtain ⟨v, ty⟩ := s
  cases ty <;>
    simp [scoreToJson, scoreFromJson, scoreFields, optCons, getKey, decReq,
      decOpt, scoreTypeFromJson, scoreTypeToJson, strFromJson, numFromJson]

theorem spanScore_roundtrip (s : SpanScore) :
    spanScoreFromJson (spanScoreToJson s) = some s := by
  obtain ⟨b, e, sc⟩ := s
  simp [spanScoreToJson, spanScoreFromJson, spanScoreFields, getKey, decReq,
    numFromJson, score_roundtrip]

theorem attributeScore_roundtrip (a : AttributeScore) :
    attributeScoreFromJson (attributeScoreToJson a) = some a := by
  obtain ⟨ss, sps⟩ := a
  cases ss <;> cases sps <;>
    simp [attributeScoreToJson, attributeScoreFromJson, attributeScoreFields,
      optCons, getKey, decOpt, listFromJson, spanScoreListToJson,
      score_roundtrip,
      decodeList_map spanScoreFromJson spanScoreToJson spanScore_roundtrip]

theorem getKey_analyze_comment (r : AnalyzeCommentRequest) :
    getKey "comment" (analyzeCommentRequestFields r) =
      some (commentToJson r.comment) := by
  simp +decide [analyzeCommentRequestFields, getKey_cons_self, getKey_cons_ne,
    getKey_optCons_ne, getKey_optCons_self, getKey_nil]

theorem getKey_analyze_context (r : AnalyzeCommentRequest) :
    getKey "context" (analyzeCommentRequestFields r) =
      Option.map contextToJson r.context := by
  simp +decide [analyzeCommentRequestFields, getKey_cons_self, getKey_cons_ne,
    getKey_optCons_ne, getKey_optCons_self, getKey_nil]

theorem getKey_analyze_requestedAttributes (r : AnalyzeCommentRequest) :
    getKey "requestedAttributes" (analyzeCommentRequestFields r) =
      some (mapToJson requestedAttributeConfigToJson r.requestedAttributes) := by
  simp +decide [analyzeCommentRequestFields, getKey_cons_self, getKey_cons_ne,
    getKey_optCons_ne, getKey_optCons_self, getKey_nil]

theorem getKey_analyze_languages (r : AnalyzeCommentRequest) :
    getKey "languages" (analyzeCommentRequestFields r) =
      Option.map stringListToJson r.languages := by
  simp +decide [analyzeCommentRequestFields, getKey_cons_self, getKey_cons_ne,
    getKey_optCons_ne, getKey_optCons_self, getKey_nil]

theorem getKey_analyze_doNotStore (r : AnalyzeCommentRequest) :
    getKey "doNotStore" (analyzeCommentRequestFields r) =
      Option.map Json.bool r.doNotStore := by
  simp +decide [analyzeCommentRequestFields, getKey_cons_self, getKey_cons_ne,
    getKey_optCons_ne, getKey_optCons_self, getKey_nil]

theorem getKey_analyze_clientToken (r : AnalyzeCommentRequest) :
    getKey "clientToken" (analyzeCommentRequestFields r) =
      Option.map Json.str r.clientToken := by
  simp +decide [analyzeCommentRequestFields, getKey_cons_self, getKey_cons_ne,
    getKey_optCons_ne, getKey_optCons_self, getKey_nil]

theorem getKey_analyze_sessionId (r : AnalyzeCommentRequest) :
    getKey "sessionId" (analyzeCommentRequestFields r) =
      Option.map Json.str r.sessionId := by
  simp +decide [analyzeCommentRequestFields, getKey_cons_self, getKey_cons_ne,
    getKey_optCons_ne, getKey_optCons_self, getKey_nil]

theorem getKey_analyze_communityId (r : AnalyzeCommentRequest) :
    getKey "communityId" (analyzeCommentRequestFields r) =
      Option.map Json.str r.communityId := by
  simp +decide [analyzeCommentRequestFields, getKey_cons_self, getKey_cons_ne,
    getKey_optCons_ne, getKey_optCons_self, getKey_nil]

theorem getKey_analyze_spanField (r : AnalyzeCommentRequest) :
    getKey "spanAnnotations" (analyzeCommentRequestFields r) =
      Option.map Json.bool r.spanAnnotations := by
  simp +decide [analyzeCommentRequestFields, getKey_cons_self, getKey_cons_ne,
    getKey_optCons_ne, getKey_optCons_self, getKey_nil]

theorem getKey_suggest_attributeScores (r : SuggestCommentScoreRequest) :
    getKey "attributeScores" (suggestCommentScoreRequestFields r) =
      some (mapToJson attributeScoreToJson r.attributeScores) := by
  simp +decide [suggestCommentScoreRequestFields, getKey_cons_self,
    getKey_cons_ne, getKey_optCons_ne, getKey_optCons_self, getKey_nil]

/-- A request carrying both an empty and a fully specified attribute
configuration, as in the spec's first example scenario. -/
def twoAttrRequest : AnalyzeCommentRequest :=
  { comment := { text := "hello", type := none }, context := none,
    requestedAttributes :=
      [("TOXICITY", { scoreType := none, scoreThreshold := none }),
       ("SEVERE_TOXICITY",
        { scoreType := some "PROBABILITY", scoreThreshold := some (1 / 2) })],
    languages := none, doNotStore := none, clientToken := none,
    sessionId := none, communityId := none, spanAnnotations := none }

/-- A request whose `languages` field is the two-element sequence
`["en", "es"]`, as in the spec's fourth example scenario. -/
def languagesRequest : AnalyzeCommentRequest :=
  { comment := { text := "hola", type := none }, context := none,
    requestedAttributes :=
      [("TOXICITY", { scoreType := none, scoreThreshold := none })],
    languages := some ["en", "es"], doNotStore := none, clientToken := none,
    sessionId := none, communityId := none, spanAnnotations := none }

/-- C1: in `AnalyzeCommentRequest`, `comment` (with its `text`) and
`requestedAttributes` are present in every value's serialized form, and a
well-formed value exists with each of the seven other fields absent. -/
theorem analyzeCommentRequest_required_and_optional_fields :
    (∀ r : AnalyzeCommentRequest,
      getKey "comment" (analyzeCommentRequestFields r) =
        some (commentToJson r.comment) ∧
      getKey "requestedAttributes" (analyzeCommentRequestFields r) =
        some (mapToJson requestedAttributeConfigToJson r.requestedAttributes) ∧
      getKey "text" (commentFields r.comment) = some (Json.str r.comment.text)) ∧
    (∃ r : AnalyzeCommentRequest, r.context = none ∧ r.languages = none ∧
      r.doNotStore = none ∧ r.clientToken = none ∧ r.sessionId = none ∧
      r.communityId = none ∧ r.spanAnnotations = none) := by
  constructor
  · intro r
    refine ⟨getKey_analyze_comment r, getKey_analyze_requestedAttributes r, ?_⟩
    simp [commentFields, getKey_cons_self]
  · exact ⟨⟨⟨"hello", none⟩, none, [("TOXICITY", ⟨none, none⟩)], none, none,
      none, none, none, none⟩, rfl, rfl, rfl, rfl, rfl, rfl, rfl⟩

/-- C2: for any `AnalyzeCommentRequest` (its required fields present by
construction, `requestedAttributes` with zero or more entries),
serializing to JSON and parsing back yields the original value. -/
theorem analyzeCommentRequest_json_roundtrip (r : AnalyzeCommentRequest) :
    analyzeCommentRequestFromJson (analyzeCommentRequestToJson r) = some r := by
  simp [analyzeCommentRequestToJson, analyzeCommentRequestFromJson,
    getKey_analyze_comment, getKey_analyze_context,
    getKey_analyze_requestedAttributes, getKey_analyze_languages,
    getKey_analyze_doNotStore, getKey_analyze_clientToken,
    getKey_analyze_sessionId, getKey_analyze_communityId,
    getKey_analyze_spanField, decReq, comment_roundtrip,
    mapFromJson_mapToJson requestedAttributeConfigFromJson
      requestedAttributeConfigToJson requestedAttributeConfig_roundtrip,
    decOpt_map_of contextFromJson contextToJson context_roundtrip,
    decOpt_map_of stringListFromJson stringListToJson stringList_roundtrip,
    decOpt_map_of boolFromJson Json.bool bool_roundtrip,
    decOpt_map_of strFromJson Json.str str_roundtrip]

/-- C3: an `AttributeScore` with absent `summaryScore` is a valid value,
distinct from one whose summary is a present `Score` with value 0; the
omitted optional fields do not appear in the serialized form, and the
value round-trips as absent rather than as a null or default
placeholder. -/
theorem attributeScore_absent_summary_valid_and_distinct :
    (∃ a : AttributeScore, a.summaryScore = none) ∧
    AttributeScore.mk none none ≠
      AttributeScore.mk (some (Score.mk 0 none)) none ∧
    getKey "summaryScore" (attributeScoreFields (AttributeScore.mk none none)) =
      none ∧
    attributeScoreToJson (AttributeScore.mk none none) = Json.obj [] ∧
    attributeScoreFromJson (attributeScoreToJson (AttributeScore.mk none none)) =
      some (AttributeScore.mk none none) :=
  ⟨⟨AttributeScore.mk none none, rfl⟩, by decide, rfl, rfl, rfl⟩

/-- C4: `ScoreType` accepts every string, not only the recommended value
"PROBABILITY": any string is a `ScoreType`, decodes as one, and may be
stored in a configuration. -/
theorem scoreType_accepts_every_string (s : String) :
    (∃ t : ScoreType, t = s) ∧ scoreTypeFromJson (Json.str s) = some s ∧
    (∃ cfg : RequestedAttributeConfig, cfg.scoreType = some s) :=
  ⟨⟨s, rfl⟩, rfl, ⟨{ scoreType := some s, scoreThreshold := none }, rfl⟩⟩

/-- C5: `attributeScores` is required in `SuggestCommentScoreRequest`
(present in every serialized value), and its type — a mapping from
attribute name to `AttributeScore` — is the very type that
`AnalyzeCommentResponse.attributeScores` optionally carries. -/
theorem suggest_attributeScores_required_same_type_as_response :
    (∀ r : SuggestCommentScoreRequest,
      getKey "attributeScores" (suggestCommentScoreRequestFields r) =
        some (mapToJson attributeScoreToJson r.attributeScores)) ∧
    (∀ m : List (String × AttributeScore),
      (∃ req : SuggestCommentScoreRequest, req.attributeScores = m) ∧
      (∃ resp : AnalyzeCommentResponse, resp.attributeScores = some m)) := by
  refine ⟨getKey_suggest_attributeScores, fun m => ⟨?_, ?_⟩⟩
  · exact ⟨⟨⟨"", none⟩, none, m, none, none, none⟩, rfl⟩
  · exact ⟨⟨some m, none, none⟩, rfl⟩

/-- C6 counterexample: the claim "for every value of the SpanScore shape,
begin ≤ end" is false: the shape admits the value with begin = 5 and
end = 0. -/
theorem spanScore_begin_le_end_counterexample :
    ¬ ∀ s : SpanScore,
        s.begin ≤ s.«end» := by
  intro h
  exact absurd
    (h { begin := 5, «end» := 0, score := { value := 0, type := none } })
    (by decide)

/-- C6 (amended): `begin ≤ end` is a documented convention, not a locally
validated invariant: every pair of numbers, together with any score,
forms a well-formed `SpanScore`, and it round-trips through JSON. -/
theorem spanScore_indices_unconstrained (b e : Number) (sc : Score) :
    ∃ s : SpanScore, s.begin = b ∧ s.«end» = e ∧ s.score = sc ∧
      spanScoreFromJson (spanScoreToJson s) = some s :=
  ⟨{ begin := b, «end» := e, score := sc }, rfl, rfl, rfl,
    spanScore_roundtrip _⟩

/-- C7: in a `Comment`, `text` is a required string (present in every
serialized value), and `type`, when present, is one of exactly the two
enumerated values "PLAIN_TEXT" and "HTML": every `TextType` serializes to
one of the two, and every other string is rejected by the decoder. -/
theorem comment_text_required_type_enumerated :
    (∀ c : Comment,
      getKey "text" (commentFields c) = some (Json.str c.text)) ∧
    (∀ t : TextType, textTypeToJson t = Json.str "PLAIN_TEXT" ∨
      textTypeToJson t = Json.str "HTML") ∧
    (∀ s : String, s ≠ "PLAIN_TEXT" → s ≠ "HTML" →
      textTypeFromJson (Json.str s) = none) := by
  refine ⟨?_, ?_, ?_⟩
  · intro c
    simp [commentFields, getKey_cons_self]
  · intro t
    cases t
    · exact Or.inl rfl
    · exact Or.inr rfl
  · intro s h1 h2
    simp [textTypeFromJson, h1, h2]

/-- C7 witness: the decoder rejects the concrete non-enumerated string
"MARKDOWN". -/
theorem comment_text_required_type_enumerated_witness :
    textTypeFromJson (Json.str "MARKDOWN") = none :=
  comment_text_required_type_enumerated.2.2 "MARKDOWN" (by decide) (by decide)

/-- C8: the empty configuration is a valid `RequestedAttributeConfig`
(serializing to the empty object), distinct from a fully specified one,
and the two coexist under different keys of the same
`requestedAttributes` mapping in a well-formed request that
round-trips. -/
theorem requestedAttributes_empty_config_valid_and_distinct :
    requestedAttributeConfigToJson
        { scoreType := none, scoreThreshold := none } = Json.obj [] ∧
    ({ scoreType := none, scoreThreshold := none } :
        RequestedAttributeConfig) ≠
      { scoreType := some "PROBABILITY", scoreThreshold := some (1 / 2) } ∧
    twoAttrRequest.requestedAttributes =
      [("TOXICITY", { scoreType := none, scoreThreshold := none }),
       ("SEVERE_TOXICITY",
        { scoreType := some "PROBABILITY", scoreThreshold := some (1 / 2) })] ∧
    analyzeCommentRequestFromJson (analyzeCommentRequestToJson twoAttrRequest) =
      some twoAttrRequest :=
  ⟨rfl, by decide, rfl, rfl⟩

/-- C9: `languages` is an ordered sequence of strings: the request whose
`languages` is `["en", "es"]` round-trips through JSON preserving both
the elements and their order. -/
theorem languages_roundtrip_ordered :
    languagesRequest.languages = some ["en", "es"] ∧
    analyzeCommentRequestFromJson
        (analyzeCommentRequestToJson languagesRequest) =
      some languagesRequest ∧
    (["en", "es"] : List String) ≠ ["es", "en"] :=
  ⟨rfl, by decide, by decide⟩

/-- C10: every field of `AnalyzeCommentResponse` and of
`SuggestCommentScoreResponse` is optional: the empty JSON object parses
into the value of each shape with every field absent, and that value
serializes back to the empty object. -/
theorem response_shapes_all_fields_optional :
    analyzeCommentResponseFromJson (Json.obj []) =
      some (AnalyzeCommentResponse.mk none none none) ∧
    suggestCommentScoreResponseFromJson (Json.obj []) =
      some (SuggestCommentScoreResponse.mk none) ∧
    analyzeCommentResponseToJson (AnalyzeCommentResponse.mk none none none) =
      Json.obj [] ∧
    suggestCommentScoreResponseToJson (SuggestCommentScoreResponse.mk none) =
      Json.obj [] :=
  ⟨rfl, rfl, rfl, rfl⟩

end Perspective
